import Mathlib

/-!
Verification of the port-finding and bookmark-persistence utilities of the
rusty_boy launcher scripts (src/scripts/launch_pandocs.rs, launch_dmg01.rs,
rust_docs.rs, gb_ctr_book.rs), shallowly embedded in Lean.

External effects are made explicit parameters: the lsof probe outcome, the
fs::write outcome and the backing file state are inputs; console printing is
irrelevant to the proved properties except where an error is degraded to a
warning, which is recorded in the returned value.
-/

/- ### String helpers modelling the Rust standard library -/

/-- Model of Rust `str::trim`: drop whitespace characters from both ends of the
underlying character list.  `Char.isWhitespace` covers space, tab, CR and LF,
the whitespace relevant to these bookmark files. -/
def rustTrim (s : String) : String :=
  String.mk (((s.data.dropWhile Char.isWhitespace).reverse.dropWhile
    Char.isWhitespace).reverse)

/-- Model of Rust `str::parse::<u32>`: an optional leading '+', then at least
one ASCII digit, and the value must fit in a u32. -/
def parse_u32 (s : String) : Option Nat :=
  let cs := match s.data with
    | '+' :: rest => rest
    | cs => cs
  if cs.isEmpty then none
  else if cs.all Char.isDigit then
    let n := cs.foldl (fun n c => n * 10 + (c.toNat - 48)) 0
    if n < 4294967296 then some n else none
  else none

/- ### PortFinder (launch_pandocs.rs lines 142-164, launch_dmg01.rs lines 63-85) -/

/-- The body of the `for port in start_port..=65535` loop of
`find_available_port`, with the remaining number of iterations as the
structural argument.  First component: the first scanned port the probe
reports free (`none` when the range is exhausted, where the source prints an
error and exits the process).  Second component: the ports passed to the
probe, in the order they were probed. -/
def scanFuel (probe : Nat → Bool) : Nat → Nat → Option Nat × List Nat
  | _, 0 => (none, [])
  | port, fuel + 1 =>
    if probe port then
      let r := scanFuel probe (port + 1) fuel
      (r.1, port :: r.2)
    else
      (some port, [port])

/-- The scan of `find_available_port` from `start` up to `maxPort` inclusive;
the loop runs `maxPort + 1 - start` times. -/
def scanPortsT (probe : Nat → Bool) (maxPort start : Nat) : Option Nat × List Nat :=
  scanFuel probe start (maxPort + 1 - start)

/-- `find_available_port(start_port: u16) -> u16` from launch_pandocs.rs and
launch_dmg01.rs: scan ascending from `start_port` to the hardcoded upper bound
65535, returning the first port for which `port_is_in_use` is false; `none`
models the exhausted-range path (`eprintln` + `process::exit(1)`).  The trace
component lists the probed ports. -/
def find_available_port (probe : Nat → Bool) (start_port : Nat) : Option Nat × List Nat :=
  scanPortsT probe 65535 start_port

/-- `port_is_in_use` from launch_pandocs.rs lines 156-164 and launch_dmg01.rs
lines 77-85.  `lsofStatus` is the outcome of spawning `lsof -i :port`:
`some b` means the command ran and `b` is `status.success()`; `none` means the
spawn itself failed (e.g. lsof absent).  The source maps the result with
`.map(|status| status.success()).unwrap_or(false)`. -/
def port_is_in_use (lsofStatus : Option Bool) : Bool :=
  match lsofStatus with
  | some success => success
  | none => false

/-- Modelled from the spec: the error taxonomy of the generalized
`findAvailablePort(start, probe, maxPort)` contract (sections 4.1 and 7).
The source has no such type: it hardcodes `maxPort = 65535`, cannot receive
`start > maxPort` (u16), and exits the process when the range is exhausted. -/
inductive PortError
  | invalidRange
  | noAvailablePort
deriving DecidableEq

/-- Modelled from the spec: the generalized contract
`findAvailablePort(start: Port, probe: PortProbe, maxPort: Port) ->
Result<Port, Error>` of section 4.1, with the `InvalidRangeError` guard for
`start > maxPort`; the scan itself is the source loop (`scanPortsT`).  The
second component lists the ports passed to the probe. -/
def findAvailablePort (start : Nat) (probe : Nat → Bool) (maxPort : Nat) :
    Except PortError Nat × List Nat :=
  if maxPort < start then
    (Except.error PortError.invalidRange, [])
  else
    match scanPortsT probe maxPort start with
    | (some p, tr) => (Except.ok p, tr)
    | (none, tr) => (Except.error PortError.noAvailablePort, tr)

/- ### BookmarkStore (rust_docs.rs lines 39-70, gb_ctr_book.rs lines 140-171) -/

/-- Observable state of the bookmark file at a store location: `none` — the
path does not exist; `some (Except.ok c)` — the file exists and reading it
yields `c`; `some (Except.error e)` — the file exists but `read_to_string`
fails with error text `e`. -/
abbrev StoreState := Option (Except String String)

/-- `save_bookmark(page: &str)` from rust_docs.rs lines 39-48.  `writeResult`
is the outcome of `fs::write(&bookmark_path, page)`.  Components of the
result: the new store state (on a successful write the file holds exactly the
given string), the value the Rust function hands back to its caller (the
function returns `()` normally on BOTH branches — the error branch only prints
a warning), and the warning text emitted, if any. -/
def save_bookmark (store : StoreState) (page : String)
    (writeResult : Except String Unit) :
    StoreState × Except String Unit × Option String :=
  match writeResult with
  | Except.ok _ => (some (Except.ok page), Except.ok (), none)
  | Except.error e => (store, Except.ok (), some ("Failed to save bookmark: " ++ e))

/-- `load_bookmark() -> Option<String>` from rust_docs.rs lines 50-70: if the
path exists and reads successfully, trim the content and return it when
nonempty; a read failure prints a warning and falls through; every other path
returns `None`. -/
def load_bookmark (store : StoreState) : Option String :=
  match store with
  | none => none
  | some (Except.error _) => none
  | some (Except.ok content) =>
    let bookmark := rustTrim content
    if bookmark = "" then none else some bookmark

/-- `load_bookmark() -> Option<u32>` from gb_ctr_book.rs lines 151-171: if the
path exists and reads successfully, trim and `parse::<u32>`; a parse failure
falls through to `None`, as does a read failure (after a warning). -/
def gb_load_bookmark (store : StoreState) : Option Nat :=
  match store with
  | none => none
  | some (Except.error _) => none
  | some (Except.ok content) =>
    match parse_u32 (rustTrim content) with
    | some page => some page
    | none => none

example : rustTrim "  ab " = "ab" := by decide
example : rustTrim " " = "" := by decide
example : parse_u32 "42" = some 42 := by decide
example : parse_u32 "not-a-number" = none := by decide
example : parse_u32 "+7" = some 7 := by decide
example : scanPortsT (fun p => decide (p < 3002)) 65535 3000 = (some 3002, [3000, 3001, 3002]) := by decide

/- ### Helper lemmas about the scan loop -/

theorem range'_len (s n : Nat) : (List.range' s n).length = n := by
  induction n generalizing s with
  | zero => rfl
  | succ n ih => simp [List.range', ih (s + 1)]

theorem scanFuel_all_bound (probe : Nat → Bool) :
    ∀ fuel port, (∀ k, k < fuel → probe (port + k) = true) →
      scanFuel probe port fuel = (none, List.range' port fuel) := by
  intro fuel
  induction fuel with
  | zero => intro port _; rfl
  | succ fuel ih =>
    intro port h
    have hp : probe port = true := by simpa using h 0 (Nat.succ_pos fuel)
    have hrest : ∀ k, k < fuel → probe (port + 1 + k) = true := by
      intro k hk
      have := h (k + 1) (by omega)
      simpa [Nat.add_assoc, Nat.add_comm 1 k] using this
    simp [scanFuel, hp, ih (port + 1) hrest, List.range']

theorem scanFuel_found (probe : Nat → Bool) :
    ∀ fuel port j, j < fuel → probe (port + j) = false →
      (∀ i, i < j → probe (port + i) = true) →
      scanFuel probe port fuel = (some (port + j), List.range' port (j + 1)) := by
  intro fuel
  induction fuel with
  | zero => intro port j hj _ _; omega
  | succ fuel ih =>
    intro port j hj hfree hbound
    cases hp : probe port with
    | false =>
      have hj0 : j = 0 := by
        by_contra hne
        have := hbound 0 (Nat.pos_of_ne_zero hne)
        simp [hp] at this
      subst hj0
      simp [scanFuel, hp, List.range']
    | true =>
      cases j with
      | zero => simp [hp] at hfree
      | succ j =>
        have hfree' : probe (port + 1 + j) = false := by
          simpa [Nat.add_assoc, Nat.add_comm 1 j] using hfree
        have hbound' : ∀ i, i < j → probe (port + 1 + i) = true := by
          intro i hi
          have := hbound (i + 1) (by omega)
          simpa [Nat.add_assoc, Nat.add_comm 1 i] using this
        have hrec := ih (port + 1) j (by omega) hfree' hbound'
        have harith : port + 1 + j = port + (j + 1) := by omega
        simp [scanFuel, hp, hrec, List.range', harith]

theorem scanPortsT_start_free (probe : Nat → Bool) (start maxPort : Nat)
    (h1 : start ≤ maxPort) (h2 : probe start = false) :
    scanPortsT probe maxPort start = (some start, [start]) := by
  have hfuel : maxPort + 1 - start = (maxPort - start) + 1 := by omega
  unfold scanPortsT
  rw [hfuel]
  simp [scanFuel, h2]

theorem rustTrim_eq_empty_of_all_whitespace (w : String)
    (h : w.data.all Char.isWhitespace = true) : rustTrim w = "" := by
  unfold rustTrim
  have h1 : w.data.dropWhile Char.isWhitespace = [] := by
    rw [List.dropWhile_eq_nil_iff]
    intro x hx
    exact List.all_eq_true.1 h x hx
  rw [h1]
  rfl

/- ### Claim theorems -/

/-- Claim C1: for every start port and probe, if at least one port in
[start, maxPort] is reported free by the probe, the scan of
`find_available_port` returns the smallest such port: every port in
[start, result) is reported bound, the result itself is reported free, and the
ports are probed in strictly ascending order from start (the probe trace is
exactly the contiguous range [start, result]). -/
theorem find_available_port_returns_least_free (start maxPort : Nat)
    (probe : Nat → Bool) (p0 : Nat) (h1 : start ≤ p0) (h2 : p0 ≤ maxPort)
    (h3 : probe p0 = false) :
    ∃ res, scanPortsT probe maxPort start =
        (some res, List.range' start (res + 1 - start)) ∧
      start ≤ res ∧ res ≤ maxPort ∧ probe res = false ∧
      ∀ q, start ≤ q → q < res → probe q = true := by
  have hex : ∃ k, probe (start + k) = false := by
    refine ⟨p0 - start, ?_⟩
    rwa [Nat.add_sub_cancel' h1]
  classical
  let j := Nat.find hex
  have hj : probe (start + j) = false := Nat.find_spec hex
  have hmin : ∀ i, i < j → probe (start + i) = true := by
    intro i hi
    have := Nat.find_min hex hi
    simpa using this
  have hjle : j ≤ p0 - start := Nat.find_min' hex (by rwa [Nat.add_sub_cancel' h1])
  have hresle : start + j ≤ maxPort := by omega
  have hfuel : j < maxPort + 1 - start := by omega
  have hscan := scanFuel_found probe (maxPort + 1 - start) start j hfuel hj hmin
  refine ⟨start + j, ?_, by omega, hresle, hj, ?_⟩
  · have harith : start + j + 1 - start = j + 1 := by omega
    rw [harith]
    exact hscan
  · intro q hq1 hq2
    have := hmin (q - start) (by omega)
    rwa [Nat.add_sub_cancel' hq1] at this

/-- Claim C1 witness: probe reports 3000 and 3001 bound, 3002 free; the scan
from 3000 returns 3002 after probing exactly [3000, 3001, 3002]. -/
theorem find_available_port_returns_least_free_witness :
    (3000 : Nat) ≤ 3002 ∧ (3002 : Nat) ≤ 65535 ∧
    (fun p => decide (p < 3002)) 3002 = false ∧
    ∃ res, scanPortsT (fun p => decide (p < 3002)) 65535 3000 =
        (some res, List.range' 3000 (res + 1 - 3000)) ∧
      3000 ≤ res ∧ res ≤ 65535 ∧ (fun p => decide (p < 3002)) res = false ∧
      ∀ q, 3000 ≤ q → q < res → (fun p => decide (p < 3002)) q = true :=
  ⟨by decide, by decide, by decide,
    find_available_port_returns_least_free 3000 65535 (fun p => decide (p < 3002))
      3002 (by decide) (by decide) (by decide)⟩

/-- Claim C3: for every start ≤ maxPort, if the probe reports every port in
[start, maxPort] bound, `findAvailablePort` fails with `NoAvailablePortError`
(the source exits the process at this point, modelled as the error result) and
calls the probe exactly maxPort - start + 1 times, with no internal retry. -/
theorem findAvailablePort_exhausted_range (start maxPort : Nat)
    (probe : Nat → Bool) (hle : start ≤ maxPort)
    (hall : ∀ p, start ≤ p → p ≤ maxPort → probe p = true) :
    (findAvailablePort start probe maxPort).1 =
      Except.error PortError.noAvailablePort ∧
    (findAvailablePort start probe maxPort).2.length = maxPort - start + 1 := by
  have hbound : ∀ k, k < maxPort + 1 - start → probe (start + k) = true := by
    intro k hk
    exact hall (start + k) (by omega) (by omega)
  have hscan : scanPortsT probe maxPort start =
      (none, List.range' start (maxPort + 1 - start)) :=
    scanFuel_all_bound probe (maxPort + 1 - start) start hbound
  have hnotlt : ¬ maxPort < start := by omega
  have hlen : (maxPort + 1 - start) = maxPort - start + 1 := by omega
  constructor
  · simp [findAvailablePort, hnotlt, hscan]
  · simp [findAvailablePort, hnotlt, hscan, range'_len, hlen]

/-- Claim C3 witness: with every port of [3000, 3002] reported bound, the
generalized finder fails with `NoAvailablePortError` after exactly 3 probes. -/
theorem findAvailablePort_exhausted_range_witness :
    (3000 : Nat) ≤ 3002 ∧
    (findAvailablePort 3000 (fun _ => true) 3002).1 =
      Except.error PortError.noAvailablePort ∧
    (findAvailablePort 3000 (fun _ => true) 3002).2.length = 3002 - 3000 + 1 :=
  ⟨by decide,
    findAvailablePort_exhausted_range 3000 3002 (fun _ => true) (by decide)
      (fun _ _ _ => rfl)⟩

/-- Claim C4: for every start > maxPort, the generalized `findAvailablePort`
fails immediately with `InvalidRangeError` and calls the probe zero times
(empty probe trace). -/
theorem findAvailablePort_invalid_range (start maxPort : Nat)
    (probe : Nat → Bool) (h : maxPort < start) :
    findAvailablePort start probe maxPort =
      (Except.error PortError.invalidRange, []) := by
  simp [findAvailablePort, h]

/-- Claim C4 witness: start 1 with maxPort 0 fails with `InvalidRangeError`
and an empty probe trace. -/
theorem findAvailablePort_invalid_range_witness :
    (0 : Nat) < 1 ∧
    findAvailablePort 1 (fun _ => true) 0 =
      (Except.error PortError.invalidRange, []) :=
  ⟨by decide, findAvailablePort_invalid_range 1 0 (fun _ => true) (by decide)⟩

/-- Claim C8: for every start ≤ maxPort, if the probe reports start itself
free, the scan returns start with exactly one probe call (trace [start]); the
generalized contract likewise returns Ok start. -/
theorem find_available_port_start_free (start maxPort : Nat)
    (probe : Nat → Bool) (h1 : start ≤ maxPort) (h2 : probe start = false) :
    scanPortsT probe maxPort start = (some start, [start]) ∧
    findAvailablePort start probe maxPort = (Except.ok start, [start]) := by
  have hscan := scanPortsT_start_free probe start maxPort h1 h2
  have hnotlt : ¬ maxPort < start := by omega
  exact ⟨hscan, by simp [findAvailablePort, hnotlt, hscan]⟩

/-- Claim C8 witness: with port 3000 free, the scan from 3000 returns 3000
after probing exactly [3000]. -/
theorem find_available_port_start_free_witness :
    (3000 : Nat) ≤ 65535 ∧ (fun _ => false : Nat → Bool) 3000 = false ∧
    scanPortsT (fun _ => false) 65535 3000 = (some 3000, [3000]) ∧
    findAvailablePort 3000 (fun _ => false) 65535 = (Except.ok 3000, [3000]) :=
  ⟨by decide, by decide,
    (find_available_port_start_free 3000 65535 (fun _ => false)
      (by decide) rfl).1,
    (find_available_port_start_free 3000 65535 (fun _ => false)
      (by decide) rfl).2⟩

/-- Claim C2 counterexample: the non-empty whitespace-only string " " refutes
the round-trip as stated — after save " ", load returns none, not
some (rustTrim " ") = some "". -/
theorem save_load_roundtrip_counterexample :
    (" " : String) ≠ "" ∧
    load_bookmark (save_bookmark none " " (Except.ok ())).1 ≠
      some (rustTrim " ") := by
  refine ⟨by decide, by decide⟩

/-- Claim C2 amended: for every string v whose trimmed content is non-empty, a
successful save stores exactly the bytes of v and a subsequent load returns
some (v trimmed of leading and trailing whitespace). -/
theorem save_load_roundtrip_trimmed_nonempty (store : StoreState) (v : String)
    (h : rustTrim v ≠ "") :
    (save_bookmark store v (Except.ok ())).1 = some (Except.ok v) ∧
    load_bookmark (save_bookmark store v (Except.ok ())).1 =
      some (rustTrim v) := by
  refine ⟨rfl, ?_⟩
  simp [save_bookmark, load_bookmark, h]

/-- Claim C2 witness: the spec's concrete scenario — saving the ownership
chapter path and loading returns exactly that string. -/
theorem save_load_roundtrip_trimmed_nonempty_witness :
    rustTrim "book/ch04-00-understanding-ownership.html" ≠ "" ∧
    load_bookmark (save_bookmark none
        "book/ch04-00-understanding-ownership.html" (Except.ok ())).1 =
      some (rustTrim "book/ch04-00-understanding-ownership.html") :=
  ⟨by decide,
    (save_load_roundtrip_trimmed_nonempty none
      "book/ch04-00-understanding-ownership.html" (by decide)).2⟩

/-- Claim C5 counterexample: a failed fs::write is NOT surfaced to
save_bookmark's caller — the function returns () normally (second component is
Except.ok ()) and degrades the IoError to a console warning. -/
theorem save_error_surfaced_counterexample :
    (save_bookmark none "42" (Except.error "disk full")).2.1 ≠
      Except.error "disk full" ∧
    (save_bookmark none "42" (Except.error "disk full")).2.1 = Except.ok () ∧
    (save_bookmark none "42" (Except.error "disk full")).2.2 =
      some ("Failed to save bookmark: " ++ "disk full") := by
  refine ⟨?_, rfl, rfl⟩
  simp [save_bookmark]

/-- Claim C5 amended: neither component retries, but I/O failures are not
surfaced: a failed bookmark write is degraded to a console warning with a
normal () return and the store unchanged; a failed bookmark read is degraded
to None; a failed probe spawn is treated as "port not in use". -/
theorem io_failures_degraded_not_surfaced (store : StoreState) (v e : String) :
    save_bookmark store v (Except.error e) =
      (store, Except.ok (), some ("Failed to save bookmark: " ++ e)) ∧
    load_bookmark (some (Except.error e)) = none ∧
    port_is_in_use none = false :=
  ⟨rfl, rfl, rfl⟩

/-- Claim C6: a stored bookmark whose trimmed content does not parse as a u32
makes the numeric load path return exactly what it returns when no bookmark
file exists (None); the function is total, so no hard error is possible. -/
theorem gb_load_bookmark_unparseable (content : String)
    (h : parse_u32 (rustTrim content) = none) :
    gb_load_bookmark (some (Except.ok content)) = gb_load_bookmark none := by
  simp [gb_load_bookmark, h]

/-- Claim C6 witness: the content "not-a-number" does not parse, and loading
it behaves as if no bookmark existed. -/
theorem gb_load_bookmark_unparseable_witness :
    parse_u32 (rustTrim "not-a-number") = none ∧
    gb_load_bookmark (some (Except.ok "not-a-number")) = gb_load_bookmark none :=
  ⟨by decide, gb_load_bookmark_unparseable "not-a-number" (by decide)⟩

/-- Claim C7: load returns None exactly when no backing file exists or the
stored value trims to the empty string; in particular a missing file is not an
error (load is total and returns None), saving a whitespace-only string and
loading returns None, and otherwise load returns some of the trimmed stored
string. -/
theorem load_bookmark_none_iff :
    load_bookmark (none : StoreState) = none ∧
    (∀ c : String, load_bookmark (some (Except.ok c)) = none ↔ rustTrim c = "") ∧
    (∀ c : String, rustTrim c ≠ "" →
      load_bookmark (some (Except.ok c)) = some (rustTrim c)) ∧
    (∀ (store : StoreState) (w : String), w.data.all Char.isWhitespace = true →
      load_bookmark (save_bookmark store w (Except.ok ())).1 = none) := by
  refine ⟨rfl, ?_, ?_, ?_⟩
  · intro c
    by_cases h : rustTrim c = "" <;> simp [load_bookmark, h]
  · intro c h
    simp [load_bookmark, h]
  · intro store w hw
    have h := rustTrim_eq_empty_of_all_whitespace w hw
    simp [save_bookmark, load_bookmark, h]

/-- Claim C7 witness: a stored page path loads as its trimmed value, and
saving the whitespace-only string "   " then loading returns None. -/
theorem load_bookmark_none_iff_witness :
    load_bookmark (some (Except.ok "  doc.html ")) = some (rustTrim "  doc.html ") ∧
    load_bookmark (save_bookmark none "   " (Except.ok ())).1 = none :=
  ⟨load_bookmark_none_iff.2.2.1 "  doc.html " (by decide),
    load_bookmark_none_iff.2.2.2 none "   " (by decide)⟩

/-- Claim C10: if spawning the lsof probe command fails (modelled as run
returning none), port_is_in_use reports the port as not in use, so
find_available_port returns the start port immediately, after exactly one
probe. -/
theorem find_available_port_probe_spawn_failure (run : Nat → Option Bool)
    (start : Nat) (h1 : start ≤ 65535) (h2 : run start = none) :
    port_is_in_use (run start) = false ∧
    find_available_port (fun p => port_is_in_use (run p)) start =
      (some start, [start]) := by
  have hfalse : port_is_in_use (run start) = false := by rw [h2]; rfl
  exact ⟨hfalse, scanPortsT_start_free _ start 65535 h1 hfalse⟩

/-- Claim C10 witness: with every lsof spawn failing, the scan from 3000
returns 3000 after one probe. -/
theorem find_available_port_probe_spawn_failure_witness :
    (3000 : Nat) ≤ 65535 ∧
    port_is_in_use ((fun _ : Nat => (none : Option Bool)) 3000) = false ∧
    find_available_port
        (fun p => port_is_in_use ((fun _ : Nat => (none : Option Bool)) p)) 3000 =
      (some 3000, [3000]) :=
  ⟨by decide,
    find_available_port_probe_spawn_failure (fun _ => none) 3000 (by decide) rfl⟩
